import Mathlib

/-!
Verification of the goodpdf staged PDF transform-and-reassembly pipeline.

The development shallowly embeds the algorithmic core of the repository:
the layout-parameter validation, the per-channel tonal transform chain, the
pipeline orchestrator's staging-directory lifecycle, and the grid assembler
that tiles images onto fixed-size pages.  Two implementations exist in the
repository: the refactored `src/app.js` (functions `createPdfFromImages`,
`applyFinalProcessing`, `processPdfPipeline`, `validateInteger`) and a legacy
variant (functions `createPDFfromImages`, `mainFinalOutput`, `main`); both
are embedded where they differ.

Filesystem-dependent behaviour is embedded explicitly: a directory listing
becomes a `List String` of filenames, the set of staging directories becomes
a record of existence flags, and the external drawing/transform libraries
become oracle parameters (`String → Option String` giving, per file, whether
the corresponding draw call throws and with which message).
-/

namespace GoodPdf

/-! Constants from src/app.js, section 4. -/

/-- ISO A4 page width in points (src/app.js line 32). -/
def A4_WIDTH : ℚ := 595

/-- ISO A4 page height in points (src/app.js line 33). -/
def A4_HEIGHT : ℚ := 842

/-- Default number of grid columns (src/app.js line 34). -/
def DEFAULT_COLUMNS : ℤ := 2

/-- Default number of grid rows (src/app.js line 35). -/
def DEFAULT_ROWS : ℤ := 4

/-- Maximum number of grid columns (src/app.js line 36). -/
def MAX_COLUMNS : ℤ := 10

/-- Maximum number of grid rows (src/app.js line 37). -/
def MAX_ROWS : ℤ := 20

/-- Allowed raster file extensions, lower case (src/app.js line 38). -/
def IMAGE_EXTENSIONS : List String := [".png", ".jpg", ".jpeg", ".webp"]

deriving instance DecidableEq for Except

/-- Lower-case a string character by character: model of JavaScript
`toLowerCase` (equivalently the regex `i` flag) on ASCII filenames. -/
def toLowerStr (s : String) : String := String.mk (s.toList.map Char.toLower)

/-- Does the second character list start with the first? -/
def leadMatch : List Char → List Char → Bool
  | [], _ => true
  | _ :: _, [] => false
  | a :: as, b :: bs => a == b && leadMatch as bs

/-- Does `s` end with `sfx`? -/
def endsWithStr (s sfx : String) : Bool :=
  leadMatch sfx.toList.reverse s.toList.reverse

/-- Inner padding inset from each tile border (src/app.js line 325). -/
def tilePadding : ℚ := 4

/-! Layout-parameter parsing: a model of JavaScript `parseInt(s, 10)`
followed by the range check of `validateInteger` (src/app.js 135-143). -/

/-- Whitespace characters skipped by JavaScript `parseInt` (common subset). -/
def isWhitespaceChar (ch : Char) : Bool :=
  ch = ' ' || ch = '\t' || ch = '\n' || ch = '\r'

/-- ASCII decimal digit test. -/
def isAsciiDigit (ch : Char) : Bool :=
  decide ('0' ≤ ch) && decide (ch ≤ '9')

/-- Accumulate a base-10 digit string into a natural number. -/
def digitsToNat : List Char → ℕ → ℕ
  | [], acc => acc
  | ch :: cs, acc => digitsToNat cs (acc * 10 + (ch.toNat - '0'.toNat))

/-- Model of JavaScript `parseInt(s, 10)`: skip leading whitespace, read an
optional sign, then the longest prefix of decimal digits; `none` models NaN
(no digits found).  Trailing garbage is ignored, so the numeric prefix of
strings such as "3.7" or "7abc" is accepted and truncated to an integer. -/
def parseIntM (s : String) : Option ℤ :=
  let cs := s.toList.dropWhile isWhitespaceChar
  match cs with
  | '-' :: rest =>
    let ds := rest.takeWhile isAsciiDigit
    if ds.isEmpty then none else some (-(digitsToNat ds 0 : ℤ))
  | '+' :: rest =>
    let ds := rest.takeWhile isAsciiDigit
    if ds.isEmpty then none else some ((digitsToNat ds 0 : ℤ))
  | _ =>
    let ds := cs.takeWhile isAsciiDigit
    if ds.isEmpty then none else some ((digitsToNat ds 0 : ℤ))

/-- src/app.js lines 135-143: `validateInteger(value, min, max, defaultValue)`
parses the value with `parseInt(String(value), 10)` and falls back to the
default when the result is NaN or out of range. -/
def validateInteger (value : String) (lo hi defaultValue : ℤ) : ℤ :=
  match parseIntM value with
  | none => defaultValue
  | some parsed => if parsed < lo ∨ parsed > hi then defaultValue else parsed

/-- src/app.js lines 435-436 (step 5 of `processPdfPipeline`): the validated
layout pair, columns first.  Each component is validated independently. -/
def pipelineLayout (rowParam columnParam : String) : ℤ × ℤ :=
  (validateInteger columnParam 1 MAX_COLUMNS DEFAULT_COLUMNS,
   validateInteger rowParam 1 MAX_ROWS DEFAULT_ROWS)

/-! Tonal transform chain.  Modelled from the spec: the per-pixel semantics
of the external sharp library calls (`negate()` replaces a channel value v by
255 − v; `linear(g, b)` applies the remap clamp(g·v + b) to the valid channel
range) is stated in spec section 4.2; the library itself is outside src/.
The gain/offset parameters and the operation order are taken from
src/app.js lines 214-218, 253-256 and 291-294.  All functions act on one
channel of a uniform gray input, on which stage 1's `grayscale()` is the
identity. -/

/-- Clamp a channel value to the valid range [0, 255]. -/
def clampChannel (v : ℚ) : ℚ := max 0 (min 255 v)

/-- sharp `negate()`: invert a channel value. -/
def negateChannel (v : ℚ) : ℚ := 255 - v

/-- sharp `linear(g, b)`: per-channel linear remap, clamped. -/
def linearChannel (g b v : ℚ) : ℚ := clampChannel (g * v + b)

/-- Stage 1 on a uniform gray channel: grayscale (identity here), negate,
then `linear(1.3, -50)` (src/app.js lines 214-218). -/
def stageOneChannel (v : ℚ) : ℚ := linearChannel 1.3 (-50) (negateChannel v)

/-- Stage 2 on a channel: negate then `linear(1.2, -30)`
(src/app.js lines 253-256). -/
def stageTwoChannel (v : ℚ) : ℚ := linearChannel 1.2 (-30) (negateChannel v)

/-- Final stage on a channel: negate then `linear(1.5, -30)`
(src/app.js lines 291-294). -/
def finalStageChannel (v : ℚ) : ℚ := linearChannel 1.5 (-30) (negateChannel v)

/-- The full stage 1 → stage 2 → stage 3 chain on a uniform gray channel. -/
def transformChain (v : ℚ) : ℚ :=
  finalStageChannel (stageTwoChannel (stageOneChannel v))

/-! Image-file filtering (src/app.js lines 150-155 and the legacy regex
filter in part_000 lines 104, 186). -/

/-- Characters after the last dot of the tail of the name, if any dot
occurs there.  Helper for `extname`. -/
def extAfterLastDot : List Char → Option (List Char)
  | [] => none
  | ch :: cs =>
    match extAfterLastDot cs with
    | some e => some e
    | none => if ch = '.' then some cs else none

/-- Model of Node `path.extname` on a plain filename: the substring from the
last dot to the end, or "" when there is no dot or the only dot is the
leading character. -/
def extname (f : String) : String :=
  match f.toList with
  | [] => ""
  | _ :: rest =>
    match extAfterLastDot rest with
    | some e => String.mk ('.' :: e)
    | none => ""

/-- src/app.js lines 150-155: keep files whose lowercased extension is in
the allow-list. -/
def filterImageFiles (files : List String) : List String :=
  files.filter (fun file => IMAGE_EXTENSIONS.contains (toLowerStr (extname file)))

/-- Legacy filter (part_000 lines 104, 124, 143, 186): the case-insensitive
regex test for a dot followed by png, jpg, jpeg or webp at the end of the
name, i.e. a lowercased suffix check. -/
def filterImageFilesRegex (files : List String) : List String :=
  files.filter (fun f => IMAGE_EXTENSIONS.any (fun e => endsWithStr (toLowerStr f) e))

/-- Insert a string into a sorted list, keeping lexicographic order.
Models one step of JavaScript `Array.prototype.sort()` on filenames. -/
def insertSorted (s : String) : List String → List String
  | [] => [s]
  | t :: ts => if s ≤ t then s :: t :: ts else t :: insertSorted s ts

/-- Model of JavaScript `files.sort()`: sort filenames lexicographically
ascending (insertion sort; the order, not the algorithm, is observable). -/
def sortStrings : List String → List String
  | [] => []
  | s :: ss => insertSorted s (sortStrings ss)

/-! Grid assembler (src/app.js lines 311-406 `createPdfFromImages` and the
legacy part_000 lines 184-228 `createPDFfromImages`; the two per-tile loops
are identical up to log strings, so one loop `asmLoop` is shared). -/

/-- One drawn image: either the padded fit-scale draw or the stretched
fallback draw, with the position and box passed to `doc.image`. -/
inductive ImgDraw
  | fit (x y w h : ℚ)
  | stretch (x y w h : ℚ)
deriving DecidableEq

/-- One tile of the output document: the source file, the 0-based index of
the page it was placed on, the tile origin (also the border-rectangle
origin), the image draw call, and the sequence-number label text drawn near
the tile's bottom-right corner. -/
structure Tile where
  file : String
  page : ℕ
  x : ℚ
  y : ℚ
  draw : ImgDraw
  label : String
deriving DecidableEq

/-- State leaving the per-tile loop: cursor, image count, page count,
tiles and warn-log lines (both accumulated in reverse). -/
structure AsmOut where
  x : ℚ
  y : ℚ
  count : ℕ
  pages : ℕ
  tiles : List Tile
  warns : List String
deriving DecidableEq

/-- The assembled document: page count, tiles in document order, and the
warn-log lines emitted while assembling. -/
structure PdfOutput where
  pages : ℕ
  tiles : List Tile
  warns : List String
deriving DecidableEq

/-- The per-tile loop of the grid assembler (src/app.js lines 333-390).
`fitErr f` gives the message thrown by the padded fit draw of `f` (none when
it succeeds); `fbErr f` likewise for the fallback stretched draw, whose
failure is not caught and aborts the loop.  A new page starts when
`count % (columns * rows) = 0`; after each tile the cursor advances one
tile width, wrapping to the next row when `(count + 1) % columns = 0`. -/
def asmLoop (columns rows : ℕ) (imageWidth imageHeight : ℚ) (warnTag : String)
    (fitErr fbErr : String → Option String) :
    List String → ℚ → ℚ → ℕ → ℕ → List Tile → List String →
    Except String AsmOut
  | [], x, y, count, pages, tiles, warns => .ok ⟨x, y, count, pages, tiles, warns⟩
  | f :: fs, x, y, count, pages, tiles, warns =>
    let x0 := if count % (columns * rows) = 0 then 0 else x
    let y0 := if count % (columns * rows) = 0 then 0 else y
    let pages0 := if count % (columns * rows) = 0 then pages + 1 else pages
    match fitErr f with
    | none =>
      let tile : Tile :=
        ⟨f, pages0 - 1, x0, y0,
         ImgDraw.fit (x0 + tilePadding) (y0 + tilePadding)
           (imageWidth - 2 * tilePadding) (imageHeight - 2 * tilePadding),
         Nat.repr (count + 1)⟩
      if (count + 1) % columns = 0 then
        asmLoop columns rows imageWidth imageHeight warnTag fitErr fbErr fs
          0 (y0 + imageHeight) (count + 1) pages0 (tile :: tiles) warns
      else
        asmLoop columns rows imageWidth imageHeight warnTag fitErr fbErr fs
          (x0 + imageWidth) y0 (count + 1) pages0 (tile :: tiles) warns
    | some _ =>
      match fbErr f with
      | some m => .error m
      | none =>
        let tile : Tile :=
          ⟨f, pages0 - 1, x0, y0, ImgDraw.stretch x0 y0 imageWidth imageHeight,
           Nat.repr (count + 1)⟩
        let warns2 := (warnTag ++ f) :: warns
        if (count + 1) % columns = 0 then
          asmLoop columns rows imageWidth imageHeight warnTag fitErr fbErr fs
            0 (y0 + imageHeight) (count + 1) pages0 (tile :: tiles) warns2
        else
          asmLoop columns rows imageWidth imageHeight warnTag fitErr fbErr fs
            (x0 + imageWidth) y0 (count + 1) pages0 (tile :: tiles) warns2

/-- src/app.js lines 311-406: `createPdfFromImages`.  Filters the directory
listing, throws `'No images found to create PDF'` on an empty set, sorts the
files, runs the per-tile loop, and wraps any thrown error as
`'Failed to create PDF: ' + message` in its outer catch block. -/
def createPdfFromImages (fitErr fbErr : String → Option String)
    (dirFiles : List String) (columns rows : ℕ) : Except String PdfOutput :=
  let run : Except String PdfOutput :=
    let imageFiles := filterImageFiles dirFiles
    if imageFiles.length = 0 then
      .error "No images found to create PDF"
    else
      let sortedFiles := sortStrings imageFiles
      let imageWidth : ℚ := A4_WIDTH / columns
      let imageHeight : ℚ := (A4_HEIGHT / rows) * 0.9
      match asmLoop columns rows imageWidth imageHeight
          "Using fallback for image: " fitErr fbErr sortedFiles 0 0 0 0 [] [] with
      | .error m => .error m
      | .ok st => .ok ⟨st.pages, st.tiles.reverse, st.warns.reverse⟩
  match run with
  | .error m => .error ("Failed to create PDF: " ++ m)
  | .ok o => .ok o

/-- part_000 lines 184-228: legacy `createPDFfromImages`.  Returns without
creating any document when no qualifying image exists (`.ok none`); there is
no surrounding try/catch, so a loop error propagates to the caller raw. -/
def createPDFfromImages (fitErr fbErr : String → Option String)
    (dirFiles : List String) (cols rows : ℕ) : Except String (Option PdfOutput) :=
  let files := sortStrings (filterImageFilesRegex dirFiles)
  if files.length = 0 then .ok none
  else
    let imageWidth : ℚ := A4_WIDTH / cols
    let imageHeight : ℚ := (A4_HEIGHT / rows) * 0.9
    match asmLoop cols rows imageWidth imageHeight
        "Fallback image draw: " fitErr fbErr files 0 0 0 0 [] [] with
    | .error m => .error m
    | .ok st => .ok (some ⟨st.pages, st.tiles.reverse, st.warns.reverse⟩)

/-! Staging-directory model for the orchestrator and the transform stages.
Only directory existence is tracked; file contents are handled by the
per-stage file-list models above. -/

/-- The four staging directories of src/app.js lines 42-45. -/
inductive SDir
  | tempUpload
  | stage1Dir
  | stage2Dir
  | finalDir
deriving DecidableEq

/-- Existence flags of the four staging directories. -/
structure StagingFS where
  tempUpload : Bool
  stage1Dir : Bool
  stage2Dir : Bool
  finalDir : Bool
deriving DecidableEq

/-- Set one directory's existence flag. -/
def StagingFS.set (fs : StagingFS) (d : SDir) (b : Bool) : StagingFS :=
  match d with
  | .tempUpload => { fs with tempUpload := b }
  | .stage1Dir => { fs with stage1Dir := b }
  | .stage2Dir => { fs with stage2Dir := b }
  | .finalDir => { fs with finalDir := b }

/-- Read one directory's existence flag. -/
def StagingFS.dirExists (fs : StagingFS) (d : SDir) : Bool :=
  match d with
  | .tempUpload => fs.tempUpload
  | .stage1Dir => fs.stage1Dir
  | .stage2Dir => fs.stage2Dir
  | .finalDir => fs.finalDir

/-- src/app.js lines 101-110: `removeFolder` recursively deletes a folder;
every failure is caught and only logged, so removal never throws.  `rmFails`
is the oracle saying whose deletion fails (leaving the directory behind). -/
def removeFolder (rmFails : SDir → Bool) (d : SDir) (fs : StagingFS) : StagingFS :=
  if rmFails d then fs else fs.set d false

/-- Deletion of all four staging folders, as done by `processPdfPipeline` in
both its step-7 success path (lines 445-450) and its catch block
(lines 457-462, each removal additionally guarded by `.catch(() => {})`). -/
def cleanupStagingFolders (rmFails : SDir → Bool) (fs : StagingFS) : StagingFS :=
  removeFolder rmFails .finalDir
    (removeFolder rmFails .stage2Dir
      (removeFolder rmFails .stage1Dir
        (removeFolder rmFails .tempUpload fs)))

/-- One pipeline stage at the directory level: ensure and clear the output
directory, then run the stage body.  `innerErr` is the underlying failure,
if any; the stage's own catch block rethrows it wrapped as
`wrapMsg ++ innerErr` (src/app.js lines 183-186, 223-226, 261-264,
299-302).  On failure the filesystem state at the throw is carried along. -/
def runStage (outDir : SDir) (wrapMsg : String) (innerErr : Option String)
    (fs : StagingFS) : Except (String × StagingFS) StagingFS :=
  let fs2 := fs.set outDir true
  match innerErr with
  | some m => .error (wrapMsg ++ m, fs2)
  | none => .ok fs2

/-- The assembly step as seen by the orchestrator: creates no staging
directory (the output document lives outside them); a failure arrives
already wrapped as `'Failed to create PDF: ' + message` (lines 402-405). -/
def runAssembler (innerErr : Option String) (fs : StagingFS) :
    Except (String × StagingFS) StagingFS :=
  match innerErr with
  | some m => .error ("Failed to create PDF: " ++ m, fs)
  | none => .ok fs

/-- src/app.js lines 414-466: `processPdfPipeline` runs conversion, the
three transform stages and assembly in order; on success it deletes all
staging folders (step 7), and on any failure its catch block deletes all
staging folders best-effort and re-raises the original error.  The result
pairs the final filesystem state with the surfaced error, if any. -/
def processPdfPipeline (errConvert errStage1 errStage2 errFinal errAssemble :
    Option String) (rmFails : SDir → Bool) (fs : StagingFS) :
    StagingFS × Option String :=
  let body : Except (String × StagingFS) StagingFS :=
    (runStage .tempUpload "Failed to convert PDF: " errConvert fs).bind fun fs1 =>
    (runStage .stage1Dir "Stage 1 processing failed: " errStage1 fs1).bind fun fs2 =>
    (runStage .stage2Dir "Stage 2 processing failed: " errStage2 fs2).bind fun fs3 =>
    (runStage .finalDir "Final processing failed: " errFinal fs3).bind fun fs4 =>
    runAssembler errAssemble fs4
  match body with
  | .ok fs2 => (cleanupStagingFolders rmFails fs2, none)
  | .error (m, fs2) => (cleanupStagingFolders rmFails fs2, some m)

/-- The message thrown by the first failing step of the pipeline, wrapped
exactly as that step's own catch block wraps it.  Used to state that the
orchestrator surfaces the stage error unmodified. -/
def pipelineErrorMessage (errConvert errStage1 errStage2 errFinal errAssemble :
    Option String) : Option String :=
  match errConvert, errStage1, errStage2, errFinal, errAssemble with
  | some m, _, _, _, _ => some ("Failed to convert PDF: " ++ m)
  | none, some m, _, _, _ => some ("Stage 1 processing failed: " ++ m)
  | none, none, some m, _, _ => some ("Stage 2 processing failed: " ++ m)
  | none, none, none, some m, _ => some ("Final processing failed: " ++ m)
  | none, none, none, none, some m => some ("Failed to create PDF: " ++ m)
  | none, none, none, none, none => none

/-! Stage-3 models at the directory level, for the eager source-directory
deletion question (src/app.js lines 272-303 versus part_000 lines 139-157).
`fileFail f` gives the message thrown by the sharp pipeline on file `f`. -/

/-- First per-file transform error in processing order, if any; the stage
loops sequentially and aborts at the first throwing file. -/
def firstFileError (fileFail : String → Option String) :
    List String → Option String
  | [] => none
  | f :: fs =>
    match fileFail f with
    | some m => some m
    | none => firstFileError fileFail fs

/-- src/app.js lines 272-303: `applyFinalProcessing`.  Ensures and clears
the final output directory, filters, no-ops on an empty set, transforms each
file (a failure is wrapped as `'Final processing failed: ' + message`), and
leaves the stage-2 source directory untouched. -/
def applyFinalProcessing (fileFail : String → Option String)
    (srcFiles : List String) (fs : StagingFS) : Except String StagingFS :=
  let fs1 := fs.set .finalDir true
  let imageFiles := filterImageFiles srcFiles
  if imageFiles.length = 0 then .ok fs1
  else
    match firstFileError fileFail imageFiles with
    | some m => .error ("Final processing failed: " ++ m)
    | none => .ok fs1

/-- part_000 lines 139-157: legacy `mainFinalOutput`.  Same shape, but after
successfully transforming a non-empty file set it deletes its own source
directory (`fs.rmSync(stage2Folder, ...)`) eagerly; errors propagate raw. -/
def mainFinalOutput (fileFail : String → Option String)
    (srcFiles : List String) (fs : StagingFS) : Except String StagingFS :=
  let fs1 := fs.set .finalDir true
  let files := filterImageFilesRegex srcFiles
  if files.length = 0 then .ok fs1
  else
    match firstFileError fileFail files with
    | some m => .error m
    | none => .ok (fs1.set .stage2Dir false)

/-- Draw oracle for runs in which no draw call ever throws. -/
def noErr : String → Option String := fun _ => none

/-! Canonical closed forms used to specify the per-tile loop. -/

/-- Ceiling division on naturals: `ceilD a b` is the number of pages needed
for `a` tiles at `b` tiles per page. -/
def ceilD (a b : ℕ) : ℕ := (a + b - 1) / b

/-- Closed form for the tile produced for the image at 0-based document
index `n`: page `n / (columns * rows)`, tile origin at grid cell
`(n % columns, (n % (columns * rows)) / columns)` in tile units. -/
def canonTile (columns rows : ℕ) (imageWidth imageHeight : ℚ)
    (fitErr : String → Option String) (n : ℕ) (f : String) : Tile :=
  let x : ℚ := ((n % columns : ℕ) : ℚ) * imageWidth
  let y : ℚ := ((n % (columns * rows) / columns : ℕ) : ℚ) * imageHeight
  { file := f, page := n / (columns * rows), x := x, y := y,
    draw :=
      if (fitErr f).isSome then ImgDraw.stretch x y imageWidth imageHeight
      else
        ImgDraw.fit (x + tilePadding) (y + tilePadding)
          (imageWidth - 2 * tilePadding) (imageHeight - 2 * tilePadding),
    label := Nat.repr (n + 1) }

/-- Canonical tile list for consecutive indices starting at `n`. -/
def canonTiles (columns rows : ℕ) (imageWidth imageHeight : ℚ)
    (fitErr : String → Option String) : ℕ → List String → List Tile
  | _, [] => []
  | n, f :: fs =>
    canonTile columns rows imageWidth imageHeight fitErr n f ::
      canonTiles columns rows imageWidth imageHeight fitErr (n + 1) fs

/-- Canonical warn log: one line per file whose fit draw fails. -/
def canonWarns (warnTag : String) (fitErr : String → Option String) :
    List String → List String
  | [] => []
  | f :: fs =>
    if (fitErr f).isSome then (warnTag ++ f) :: canonWarns warnTag fitErr fs
    else canonWarns warnTag fitErr fs

/-! Arithmetic helper lemmas for the cursor and page-count invariants. -/

theorem ceilD_eq (a b : ℕ) (hb : 0 < b) :
    ceilD a b = a / b + (if a % b = 0 then 0 else 1) := by
  unfold ceilD
  have hd := Nat.div_add_mod a b
  by_cases h : a % b = 0
  · rw [if_pos h]
    have h1 : a + b - 1 = b * (a / b) + (b - 1) := by omega
    rw [h1, Nat.mul_add_div hb]
    have h2 : (b - 1) / b = 0 := Nat.div_eq_of_lt (by omega)
    omega
  · rw [if_neg h]
    have hlt : a % b < b := Nat.mod_lt _ hb
    have h1 : a + b - 1 = b * (a / b) + (a % b - 1 + b) := by omega
    rw [h1, Nat.mul_add_div hb, Nat.add_div_right _ hb]
    have h2 : (a % b - 1) / b = 0 := Nat.div_eq_of_lt (by omega)
    omega

theorem ceilD_succ (a b : ℕ) (hb : 0 < b) : ceilD (a + 1) b = a / b + 1 := by
  unfold ceilD
  have h1 : a + 1 + b - 1 = a + b := by omega
  rw [h1, Nat.add_div_right _ hb]

theorem ceilD_zero (b : ℕ) (hb : 0 < b) : ceilD 0 b = 0 := by
  unfold ceilD
  have h1 : 0 + b - 1 = b - 1 := by omega
  rw [h1]
  exact Nat.div_eq_of_lt (by omega)

theorem succ_mod (n c : ℕ) (hc : 0 < c) :
    (n + 1) % c = if n % c + 1 = c then 0 else n % c + 1 := by
  conv_lhs => rw [← Nat.div_add_mod n c]
  rw [Nat.add_assoc, Nat.mul_add_mod]
  by_cases h : n % c + 1 = c
  · rw [if_pos h, h, Nat.mod_self]
  · rw [if_neg h]
    exact Nat.mod_eq_of_lt (by have := Nat.mod_lt n hc; omega)

theorem mod_mul_mod (n c r : ℕ) : n % (c * r) % c = n % c :=
  Nat.mod_mod_of_dvd n (dvd_mul_right c r)

theorem mod_c_of_mod_mul (n c r : ℕ) (h : n % (c * r) = 0) : n % c = 0 := by
  have h2 := mod_mul_mod n c r
  rw [h] at h2
  simpa using h2.symm

theorem col_step_ne (n c : ℕ) (hc : 0 < c) (h : (n + 1) % c ≠ 0) :
    (n + 1) % c = n % c + 1 := by
  rw [succ_mod n c hc] at h ⊢
  by_cases hcEq : n % c + 1 = c
  · rw [if_pos hcEq] at h
    exact absurd rfl h
  · rw [if_neg hcEq]

theorem col_step_eq (n c : ℕ) (hc : 0 < c) (h : (n + 1) % c = 0) :
    n % c + 1 = c := by
  rw [succ_mod n c hc] at h
  by_cases hcEq : n % c + 1 = c
  · exact hcEq
  · rw [if_neg hcEq] at h
    omega

theorem row_step_ne (n c r : ℕ) (hc : 0 < c) (hr : 0 < r)
    (hcol : (n + 1) % c ≠ 0) (hpage : (n + 1) % (c * r) ≠ 0) :
    (n + 1) % (c * r) / c = n % (c * r) / c := by
  have hm : 0 < c * r := Nat.mul_pos hc hr
  rw [col_step_ne n (c * r) hm hpage]
  have hsc : n % (c * r) % c = n % c := mod_mul_mod n c r
  have hscne : n % c + 1 ≠ c := by
    intro hEq
    exact hcol (by rw [succ_mod n c hc, if_pos hEq])
  have hlt : n % (c * r) % c + 1 < c := by
    have h2 := Nat.mod_lt n hc
    omega
  conv_lhs => rw [← Nat.div_add_mod (n % (c * r)) c, Nat.add_assoc,
    Nat.mul_add_div hc]
  rw [Nat.div_eq_of_lt hlt]
  omega

theorem row_step_wrap (n c r : ℕ) (hc : 0 < c) (hr : 0 < r)
    (hcol : (n + 1) % c = 0) (hpage : (n + 1) % (c * r) ≠ 0) :
    (n + 1) % (c * r) / c = n % (c * r) / c + 1 := by
  have hm : 0 < c * r := Nat.mul_pos hc hr
  rw [col_step_ne n (c * r) hm hpage]
  have hsc : n % (c * r) % c = n % c := mod_mul_mod n c r
  have hEq : n % c + 1 = c := col_step_eq n c hc hcol
  conv_lhs => rw [← Nat.div_add_mod (n % (c * r)) c, Nat.add_assoc,
    Nat.mul_add_div hc]
  rw [hsc, hEq, Nat.div_self hc]

theorem pages_step (n m : ℕ) (hm : 0 < m) :
    (if n % m = 0 then ceilD n m + 1 else ceilD n m) = ceilD (n + 1) m ∧
    (if n % m = 0 then ceilD n m + 1 else ceilD n m) - 1 = n / m := by
  rw [ceilD_succ n m hm, ceilD_eq n m hm]
  by_cases h : n % m = 0
  · simp [h]
  · simp [h]

/-! List helper lemmas. -/

theorem insertSorted_length (s : String) (l : List String) :
    (insertSorted s l).length = l.length + 1 := by
  induction l with
  | nil => rfl
  | cons t ts ih =>
    unfold insertSorted
    by_cases h : s ≤ t
    · simp [h]
    · simp [h, ih]

theorem sortStrings_length (l : List String) :
    (sortStrings l).length = l.length := by
  induction l with
  | nil => rfl
  | cons s ss ih => simp [sortStrings, insertSorted_length, ih]

theorem canonTiles_length (columns rows : ℕ) (W H : ℚ)
    (fitErr : String → Option String) (fs : List String) :
    ∀ n : ℕ, (canonTiles columns rows W H fitErr n fs).length = fs.length := by
  induction fs with
  | nil => intro n; rfl
  | cons f fs ih => intro n; simp [canonTiles, ih]

theorem canonTiles_getElem (columns rows : ℕ) (W H : ℚ)
    (fitErr : String → Option String) (fs : List String) :
    ∀ (n i : ℕ) (h1 : i < (canonTiles columns rows W H fitErr n fs).length)
      (h2 : i < fs.length),
      (canonTiles columns rows W H fitErr n fs)[i] =
        canonTile columns rows W H fitErr (n + i) fs[i] := by
  induction fs with
  | nil => intro n i h1 h2; simp at h2
  | cons f fs ih =>
    intro n i h1 h2
    cases i with
    | zero => simp [canonTiles]
    | succ j =>
      have h1' : j < (canonTiles columns rows W H fitErr (n + 1) fs).length := by
        rw [canonTiles_length]
        rw [canonTiles_length] at h1
        simpa using h1
      have h2' : j < fs.length := by simpa using h2
      have hstep : (canonTiles columns rows W H fitErr n (f :: fs))[j + 1] =
          (canonTiles columns rows W H fitErr (n + 1) fs)[j] := by
        simp [canonTiles]
      rw [hstep, ih (n + 1) j h1' h2']
      have he : n + 1 + j = n + (j + 1) := by omega
      rw [he]
      simp

theorem canonWarns_mem (warnTag : String) (fitErr : String → Option String)
    (f : String) (fs : List String) (hmem : f ∈ fs)
    (hsome : (fitErr f).isSome = true) :
    (warnTag ++ f) ∈ canonWarns warnTag fitErr fs := by
  induction fs with
  | nil => simp at hmem
  | cons g gs ih =>
    rcases List.mem_cons.mp hmem with h | h
    · subst h
      simp [canonWarns, hsome]
    · by_cases hg : (fitErr g).isSome = true
      · simp only [canonWarns, if_pos hg]
        exact List.mem_cons_of_mem _ (ih h)
      · simp only [canonWarns, if_neg hg]
        exact ih h

/-! The loop invariant of the grid assembler: starting the loop at image
index `n` with the canonical cursor and page count, it succeeds (provided
every failing fit draw has a succeeding fallback draw) and produces exactly
the canonical tiles and warn lines. -/

theorem asmLoop_ok (columns rows : ℕ) (hc : 0 < columns) (hr : 0 < rows)
    (W H : ℚ) (warnTag : String) (fitErr fbErr : String → Option String)
    (fs : List String) :
    (∀ g ∈ fs, (fitErr g).isSome = true → fbErr g = none) →
    ∀ (n : ℕ) (x y : ℚ) (tiles : List Tile) (warns : List String),
      (n % (columns * rows) ≠ 0 →
        x = ((n % columns : ℕ) : ℚ) * W ∧
        y = ((n % (columns * rows) / columns : ℕ) : ℚ) * H) →
      ∃ x2 y2 : ℚ,
        asmLoop columns rows W H warnTag fitErr fbErr fs x y n
            (ceilD n (columns * rows)) tiles warns =
          .ok ⟨x2, y2, n + fs.length, ceilD (n + fs.length) (columns * rows),
            (canonTiles columns rows W H fitErr n fs).reverse ++ tiles,
            (canonWarns warnTag fitErr fs).reverse ++ warns⟩ := by
  induction fs with
  | nil =>
    intro _ n x y tiles warns _
    exact ⟨x, y, by simp [asmLoop, canonTiles, canonWarns]⟩
  | cons f fs ih =>
    intro hsafe n x y tiles warns hxy
    have hm : 0 < columns * rows := Nat.mul_pos hc hr
    have hsafe' : ∀ g ∈ fs, (fitErr g).isSome = true → fbErr g = none :=
      fun g hg => hsafe g (List.mem_cons_of_mem f hg)
    have hsafef := hsafe f (List.mem_cons_self f fs)
    have hx0 : (if n % (columns * rows) = 0 then (0 : ℚ) else x) =
        ((n % columns : ℕ) : ℚ) * W := by
      by_cases h : n % (columns * rows) = 0
      · rw [if_pos h, mod_c_of_mod_mul n columns rows h]
        simp
      · rw [if_neg h]
        exact (hxy h).1
    have hy0 : (if n % (columns * rows) = 0 then (0 : ℚ) else y) =
        ((n % (columns * rows) / columns : ℕ) : ℚ) * H := by
      by_cases h : n % (columns * rows) = 0
      · rw [if_pos h, h]
        simp
      · rw [if_neg h]
        exact (hxy h).2
    have hpg := pages_step n (columns * rows) hm
    have hpage : ceilD (n + 1) (columns * rows) - 1 = n / (columns * rows) := by
      rw [ceilD_succ n (columns * rows) hm]
      omega
    simp only [asmLoop, hx0, hy0, hpg.1, List.length_cons]
    rw [show n + (fs.length + 1) = n + 1 + fs.length from by omega]
    cases hfit : fitErr f with
    | none =>
      have htile : (⟨f, ceilD (n + 1) (columns * rows) - 1,
          ((n % columns : ℕ) : ℚ) * W,
          ((n % (columns * rows) / columns : ℕ) : ℚ) * H,
          ImgDraw.fit (((n % columns : ℕ) : ℚ) * W + tilePadding)
            (((n % (columns * rows) / columns : ℕ) : ℚ) * H + tilePadding)
            (W - 2 * tilePadding) (H - 2 * tilePadding),
          Nat.repr (n + 1)⟩ : Tile) =
          canonTile columns rows W H fitErr n f := by
        simp [canonTile, hfit, hpage]
      rw [htile]
      by_cases hwrap : (n + 1) % columns = 0
      · have hyp : (n + 1) % (columns * rows) ≠ 0 →
            (0 : ℚ) = (((n + 1) % columns : ℕ) : ℚ) * W ∧
            ((n % (columns * rows) / columns : ℕ) : ℚ) * H + H =
              (((n + 1) % (columns * rows) / columns : ℕ) : ℚ) * H := by
          intro hne
          constructor
          · rw [hwrap]
            simp
          · rw [row_step_wrap n columns rows hc hr hwrap hne]
            push_cast
            ring
        obtain ⟨x2, y2, hrec⟩ := ih hsafe' (n + 1) 0
          (((n % (columns * rows) / columns : ℕ) : ℚ) * H + H)
          (canonTile columns rows W H fitErr n f :: tiles) warns hyp
        refine ⟨x2, y2, ?_⟩
        rw [if_pos hwrap, hrec]
        simp [canonTiles, canonWarns, hfit, List.reverse_cons, List.append_assoc]
      · have hyp : (n + 1) % (columns * rows) ≠ 0 →
            ((n % columns : ℕ) : ℚ) * W + W = (((n + 1) % columns : ℕ) : ℚ) * W ∧
            ((n % (columns * rows) / columns : ℕ) : ℚ) * H =
              (((n + 1) % (columns * rows) / columns : ℕ) : ℚ) * H := by
          intro hne
          constructor
          · rw [col_step_ne n columns hc hwrap]
            push_cast
            ring
          · rw [row_step_ne n columns rows hc hr hwrap hne]
        obtain ⟨x2, y2, hrec⟩ := ih hsafe' (n + 1)
          (((n % columns : ℕ) : ℚ) * W + W)
          (((n % (columns * rows) / columns : ℕ) : ℚ) * H)
          (canonTile columns rows W H fitErr n f :: tiles) warns hyp
        refine ⟨x2, y2, ?_⟩
        rw [if_neg hwrap, hrec]
        simp [canonTiles, canonWarns, hfit, List.reverse_cons, List.append_assoc]
    | some e =>
      have hfb : fbErr f = none := hsafef (by rw [hfit]; rfl)
      have htile : (⟨f, ceilD (n + 1) (columns * rows) - 1,
          ((n % columns : ℕ) : ℚ) * W,
          ((n % (columns * rows) / columns : ℕ) : ℚ) * H,
          ImgDraw.stretch (((n % columns : ℕ) : ℚ) * W)
            (((n % (columns * rows) / columns : ℕ) : ℚ) * H) W H,
          Nat.repr (n + 1)⟩ : Tile) =
          canonTile columns rows W H fitErr n f := by
        simp [canonTile, hfit, hpage]
      rw [hfb, htile]
      by_cases hwrap : (n + 1) % columns = 0
      · have hyp : (n + 1) % (columns * rows) ≠ 0 →
            (0 : ℚ) = (((n + 1) % columns : ℕ) : ℚ) * W ∧
            ((n % (columns * rows) / columns : ℕ) : ℚ) * H + H =
              (((n + 1) % (columns * rows) / columns : ℕ) : ℚ) * H := by
          intro hne
          constructor
          · rw [hwrap]
            simp
          · rw [row_step_wrap n columns rows hc hr hwrap hne]
            push_cast
            ring
        obtain ⟨x2, y2, hrec⟩ := ih hsafe' (n + 1) 0
          (((n % (columns * rows) / columns : ℕ) : ℚ) * H + H)
          (canonTile columns rows W H fitErr n f :: tiles)
          ((warnTag ++ f) :: warns) hyp
        refine ⟨x2, y2, ?_⟩
        rw [if_pos hwrap, hrec]
        simp [canonTiles, canonWarns, hfit, List.reverse_cons, List.append_assoc]
        intro hcontra
        exact absurd hwrap hcontra
      · have hyp : (n + 1) % (columns * rows) ≠ 0 →
            ((n % columns : ℕ) : ℚ) * W + W = (((n + 1) % columns : ℕ) : ℚ) * W ∧
            ((n % (columns * rows) / columns : ℕ) : ℚ) * H =
              (((n + 1) % (columns * rows) / columns : ℕ) : ℚ) * H := by
          intro hne
          constructor
          · rw [col_step_ne n columns hc hwrap]
            push_cast
            ring
          · rw [row_step_ne n columns rows hc hr hwrap hne]
        obtain ⟨x2, y2, hrec⟩ := ih hsafe' (n + 1)
          (((n % columns : ℕ) : ℚ) * W + W)
          (((n % (columns * rows) / columns : ℕ) : ℚ) * H)
          (canonTile columns rows W H fitErr n f :: tiles)
          ((warnTag ++ f) :: warns) hyp
        refine ⟨x2, y2, ?_⟩
        rw [if_neg hwrap, hrec]
        simp [canonTiles, canonWarns, hfit, List.reverse_cons, List.append_assoc]
        intro hcontra
        exact absurd hcontra hwrap

/-! Closed form of a successful assembly run. -/

theorem createPdfFromImages_ok (fitErr fbErr : String → Option String)
    (dirFiles : List String) (columns rows : ℕ) (hc : 0 < columns)
    (hr : 0 < rows)
    (hsafe : ∀ g, (fitErr g).isSome = true → fbErr g = none)
    (hne : filterImageFiles dirFiles ≠ []) :
    createPdfFromImages fitErr fbErr dirFiles columns rows =
      .ok ⟨ceilD (filterImageFiles dirFiles).length (columns * rows),
        canonTiles columns rows (A4_WIDTH / columns) ((A4_HEIGHT / rows) * 0.9)
          fitErr 0 (sortStrings (filterImageFiles dirFiles)),
        canonWarns "Using fallback for image: " fitErr
          (sortStrings (filterImageFiles dirFiles))⟩ := by
  have hm : 0 < columns * rows := Nat.mul_pos hc hr
  have hlen0 : ¬ (filterImageFiles dirFiles).length = 0 := by
    intro h
    exact hne (List.length_eq_zero.mp h)
  obtain ⟨x2, y2, hrec⟩ := asmLoop_ok columns rows hc hr (A4_WIDTH / columns)
    ((A4_HEIGHT / rows) * 0.9) "Using fallback for image: " fitErr fbErr
    (sortStrings (filterImageFiles dirFiles))
    (fun g _ => hsafe g) 0 0 0 [] []
    (fun h => absurd (Nat.zero_mod (columns * rows)) h)
  rw [ceilD_zero (columns * rows) hm] at hrec
  simp only [createPdfFromImages]
  rw [if_neg hlen0, hrec]
  simp [sortStrings_length]

/-! The loop on an appended list runs the first part, then the second. -/

theorem asmLoop_append (columns rows : ℕ) (W H : ℚ) (warnTag : String)
    (fitErr fbErr : String → Option String) (l1 l2 : List String) :
    ∀ (x y : ℚ) (count pages : ℕ) (tiles : List Tile) (warns : List String),
      asmLoop columns rows W H warnTag fitErr fbErr (l1 ++ l2) x y count pages
          tiles warns =
        match asmLoop columns rows W H warnTag fitErr fbErr l1 x y count pages
            tiles warns with
        | .error m => .error m
        | .ok st => asmLoop columns rows W H warnTag fitErr fbErr l2 st.x st.y
            st.count st.pages st.tiles st.warns := by
  induction l1 with
  | nil =>
    intro x y count pages tiles warns
    simp [asmLoop]
  | cons f l1 ih =>
    intro x y count pages tiles warns
    simp only [List.cons_append, asmLoop]
    cases hfit : fitErr f with
    | none =>
      by_cases hwrap : (count + 1) % columns = 0 <;> simp [hwrap, ih]
    | some e =>
      cases hfb : fbErr f with
      | some m => simp
      | none =>
        by_cases hwrap : (count + 1) % columns = 0 <;> simp [hwrap, ih]

/-- A tile whose fit draw and fallback draw both throw aborts the loop with
the fallback's error. -/
theorem asmLoop_fatal (columns rows : ℕ) (W H : ℚ) (warnTag : String)
    (fitErr fbErr : String → Option String) (f : String) (fs : List String)
    (e m : String) (hfit : fitErr f = some e) (hfb : fbErr f = some m)
    (x y : ℚ) (count pages : ℕ) (tiles : List Tile) (warns : List String) :
    asmLoop columns rows W H warnTag fitErr fbErr (f :: fs) x y count pages
      tiles warns = .error m := by
  simp [asmLoop, hfit, hfb]

/-! Orchestrator helper lemmas. -/

theorem pipeline_snd (errConvert errStage1 errStage2 errFinal errAssemble :
    Option String) (rmFails : SDir → Bool) (fs : StagingFS) :
    (processPdfPipeline errConvert errStage1 errStage2 errFinal errAssemble
      rmFails fs).2 =
      pipelineErrorMessage errConvert errStage1 errStage2 errFinal
        errAssemble := by
  cases errConvert <;> cases errStage1 <;> cases errStage2 <;> cases errFinal <;>
    cases errAssemble <;>
    simp [processPdfPipeline, pipelineErrorMessage, runStage, runAssembler,
      Except.bind]

theorem cleanup_removes (rmFails : SDir → Bool) (fs : StagingFS) (d : SDir)
    (hd : rmFails d = false) :
    (cleanupStagingFolders rmFails fs).dirExists d = false := by
  cases d <;>
    simp [cleanupStagingFolders, removeFolder, StagingFS.set,
      StagingFS.dirExists, hd, apply_ite]

theorem pipeline_fst_clean (errConvert errStage1 errStage2 errFinal
    errAssemble : Option String) (rmFails : SDir → Bool) (fs : StagingFS)
    (d : SDir) (hd : rmFails d = false) :
    ((processPdfPipeline errConvert errStage1 errStage2 errFinal errAssemble
      rmFails fs).1).dirExists d = false := by
  have hclean := cleanup_removes rmFails
  cases errConvert <;> cases errStage1 <;> cases errStage2 <;> cases errFinal <;>
    cases errAssemble <;>
    simp [processPdfPipeline, runStage, runAssembler, Except.bind] <;>
    exact hclean _ d hd

/-! The ten claims. -/

/-- C1 counterexample: on a directory with zero qualifying images, the
app.js Grid Assembler `createPdfFromImages` does signal an error (it throws
'No images found to create PDF', surfaced through its outer catch as
'Failed to create PDF: No images found to create PDF'), contradicting the
claim that assembly returns without signalling an error. -/
theorem c1_counterexample :
    createPdfFromImages noErr noErr [] 2 4 =
      .error "Failed to create PDF: No images found to create PDF" := by
  decide

/-- C1 amended: with zero qualifying images, the legacy `createPDFfromImages`
produces no document and signals no error, while the app.js
`createPdfFromImages` produces no document but signals the error
'Failed to create PDF: No images found to create PDF'. -/
theorem c1_amended :
    (∀ (fitErr fbErr : String → Option String) (dirFiles : List String)
        (cols rows : ℕ), filterImageFilesRegex dirFiles = [] →
        createPDFfromImages fitErr fbErr dirFiles cols rows = .ok none) ∧
    (∀ (fitErr fbErr : String → Option String) (dirFiles : List String)
        (cols rows : ℕ), filterImageFiles dirFiles = [] →
        createPdfFromImages fitErr fbErr dirFiles cols rows =
          .error "Failed to create PDF: No images found to create PDF") := by
  constructor
  · intro fitErr fbErr dirFiles cols rows h
    simp [createPDFfromImages, h, sortStrings]
  · intro fitErr fbErr dirFiles cols rows h
    simp [createPdfFromImages, h]

/-- C1 amended witness: concrete empty-directory runs of both assemblers. -/
theorem c1_amended_witness :
    createPDFfromImages noErr noErr [] 2 4 = .ok none ∧
    createPdfFromImages noErr noErr ["doc.txt"] 2 4 =
      .error "Failed to create PDF: No images found to create PDF" :=
  ⟨c1_amended.1 noErr noErr [] 2 4 (by decide),
   c1_amended.2 noErr noErr ["doc.txt"] 2 4 (by decide)⟩

/-- C2: for every layout with rows in [1,20] and columns in [1,10] and a
non-empty set of N qualifying images, `createPdfFromImages` succeeds with
exactly ceil(N / (rows·columns)) pages, and the tile of image i (0-based,
in sorted order) lies on page i / (rows·columns) at grid cell
(i % columns, (i / columns) % rows), filling pages in row-major order. -/
theorem c2_grid_pagination (dirFiles : List String) (columns rows : ℕ)
    (hr1 : 1 ≤ rows) (hr2 : rows ≤ 20) (hc1 : 1 ≤ columns)
    (hc2 : columns ≤ 10) (hne : filterImageFiles dirFiles ≠ []) :
    ∃ out, createPdfFromImages noErr noErr dirFiles columns rows = .ok out ∧
      out.pages = ((filterImageFiles dirFiles).length + rows * columns - 1) /
        (rows * columns) ∧
      out.tiles.length = (filterImageFiles dirFiles).length ∧
      ∀ (i : ℕ) (h : i < out.tiles.length),
        (out.tiles.get ⟨i, h⟩).page = i / (rows * columns) ∧
        (out.tiles.get ⟨i, h⟩).x =
          ((i % columns : ℕ) : ℚ) * (A4_WIDTH / columns) ∧
        (out.tiles.get ⟨i, h⟩).y =
          ((i / columns % rows : ℕ) : ℚ) * ((A4_HEIGHT / rows) * 0.9) := by
  have hc : 0 < columns := hc1
  have hr : 0 < rows := hr1
  refine ⟨_, createPdfFromImages_ok noErr noErr dirFiles columns rows hc hr
    (fun g hg => by simp [noErr] at hg) hne, ?_, ?_, ?_⟩
  · show ceilD (filterImageFiles dirFiles).length (columns * rows) = _
    rw [show rows * columns = columns * rows from Nat.mul_comm rows columns]
    rfl
  · show (canonTiles _ _ _ _ _ _ _).length = _
    rw [canonTiles_length, sortStrings_length]
  · intro i h
    have hs : i < (sortStrings (filterImageFiles dirFiles)).length := by
      have h2 : i < (canonTiles columns rows (A4_WIDTH / columns)
          ((A4_HEIGHT / rows) * 0.9) noErr 0
          (sortStrings (filterImageFiles dirFiles))).length := h
      rwa [canonTiles_length] at h2
    rw [show rows * columns = columns * rows from Nat.mul_comm rows columns,
      Nat.div_mod_eq_mod_mul_div i columns rows]
    simp only [List.get_eq_getElem]
    rw [canonTiles_getElem _ _ _ _ _ _ 0 i h hs]
    simp [canonTile]

/-- C2 witness: three images in a 2-column, 1-row layout fill two pages. -/
theorem c2_grid_pagination_witness :
    (createPdfFromImages noErr noErr ["b.png", "a.png", "c.png"] 2 1).toOption.map
      (fun o => o.pages) = some 2 := by
  obtain ⟨out, hok, hpages, -, -⟩ := c2_grid_pagination
    ["b.png", "a.png", "c.png"] 2 1 (by decide) (by decide) (by decide)
    (by decide) (by decide)
  rw [hok]
  simp only [Except.toOption, Option.map, Option.some.injEq]
  rw [hpages]
  decide

/-- C3: whenever some pipeline stage fails, `processPdfPipeline` surfaces
exactly the message the first failing stage threw (its own wrapped message,
unmodified by the orchestrator, and never replaced by a cleanup failure,
since `rmFails` is arbitrary), and every staging directory whose best-effort
removal does not itself fail is gone afterwards. -/
theorem c3_failure_cleanup (errConvert errStage1 errStage2 errFinal
    errAssemble : Option String) (rmFails : SDir → Bool) (fs : StagingFS)
    (m : String)
    (hfail : pipelineErrorMessage errConvert errStage1 errStage2 errFinal
      errAssemble = some m) :
    (processPdfPipeline errConvert errStage1 errStage2 errFinal errAssemble
      rmFails fs).2 = some m ∧
    ∀ d : SDir, rmFails d = false →
      ((processPdfPipeline errConvert errStage1 errStage2 errFinal errAssemble
        rmFails fs).1).dirExists d = false := by
  constructor
  · rw [pipeline_snd]
    exact hfail
  · intro d hd
    exact pipeline_fst_clean errConvert errStage1 errStage2 errFinal
      errAssemble rmFails fs d hd

/-- C3 witness: a stage-1 failure with message 'boom' surfaces exactly
'Stage 1 processing failed: boom' and leaves no staging directory. -/
theorem c3_failure_cleanup_witness :
    (processPdfPipeline none (some "boom") none none none (fun _ => false)
      ⟨true, true, true, true⟩).2 = some "Stage 1 processing failed: boom" ∧
    ((processPdfPipeline none (some "boom") none none none (fun _ => false)
      ⟨true, true, true, true⟩).1).dirExists SDir.tempUpload = false ∧
    ((processPdfPipeline none (some "boom") none none none (fun _ => false)
      ⟨true, true, true, true⟩).1).dirExists SDir.stage1Dir = false ∧
    ((processPdfPipeline none (some "boom") none none none (fun _ => false)
      ⟨true, true, true, true⟩).1).dirExists SDir.stage2Dir = false ∧
    ((processPdfPipeline none (some "boom") none none none (fun _ => false)
      ⟨true, true, true, true⟩).1).dirExists SDir.finalDir = false := by
  have h := c3_failure_cleanup none (some "boom") none none none
    (fun _ => false) ⟨true, true, true, true⟩
    "Stage 1 processing failed: boom" (by decide)
  exact ⟨h.1, h.2 SDir.tempUpload rfl, h.2 SDir.stage1Dir rfl,
    h.2 SDir.stage2Dir rfl, h.2 SDir.finalDir rfl⟩

/-- C4 counterexample: a successful run of the app.js stage 3
(`applyFinalProcessing`) over one image leaves its source (stage-2)
directory in place (third flag still true), contradicting the claim that
stage 3 deletes its own source directory after writing. -/
theorem c4_counterexample :
    applyFinalProcessing noErr ["page1.png"] ⟨true, true, true, false⟩ =
      .ok ⟨true, true, true, true⟩ := by
  decide

/-- C4 amended: only the legacy stage 3 (`mainFinalOutput`) deletes its
source (stage-2) directory immediately after successfully writing a
non-empty output set; the app.js `applyFinalProcessing` never touches the
stage-2 directory, which is only removed by the pipeline's final cleanup. -/
theorem c4_amended :
    (∀ (fileFail : String → Option String) (srcFiles : List String)
        (fs fs2 : StagingFS),
        mainFinalOutput fileFail srcFiles fs = .ok fs2 →
        filterImageFilesRegex srcFiles ≠ [] → fs2.stage2Dir = false) ∧
    (∀ (fileFail : String → Option String) (srcFiles : List String)
        (fs fs2 : StagingFS),
        applyFinalProcessing fileFail srcFiles fs = .ok fs2 →
        fs2.stage2Dir = fs.stage2Dir) := by
  constructor
  · intro fileFail srcFiles fs fs2 hok hne
    have hlen : ¬ (filterImageFilesRegex srcFiles).length = 0 := by
      intro h0
      exact hne (List.length_eq_zero.mp h0)
    simp only [mainFinalOutput, if_neg hlen] at hok
    cases hferr : firstFileError fileFail (filterImageFilesRegex srcFiles) with
    | some m =>
      rw [hferr] at hok
      simp at hok
    | none =>
      rw [hferr] at hok
      simp only [Except.ok.injEq] at hok
      rw [← hok]
      simp [StagingFS.set]
  · intro fileFail srcFiles fs fs2 hok
    simp only [applyFinalProcessing] at hok
    by_cases hlen : (filterImageFiles srcFiles).length = 0
    · rw [if_pos hlen] at hok
      simp only [Except.ok.injEq] at hok
      rw [← hok]
      simp [StagingFS.set]
    · rw [if_neg hlen] at hok
      cases hferr : firstFileError fileFail (filterImageFiles srcFiles) with
      | some m =>
        rw [hferr] at hok
        simp at hok
      | none =>
        rw [hferr] at hok
        simp only [Except.ok.injEq] at hok
        rw [← hok]
        simp [StagingFS.set]

/-- C4 amended witness: concrete single-file runs of both stage-3 variants. -/
theorem c4_amended_witness :
    (StagingFS.mk true true false true).stage2Dir = false ∧
    (StagingFS.mk true true true true).stage2Dir =
      (StagingFS.mk true true true false).stage2Dir :=
  ⟨c4_amended.1 noErr ["p.png"] ⟨true, true, true, false⟩
      ⟨true, true, false, true⟩ (by decide) (by decide),
   c4_amended.2 noErr ["p.png"] ⟨true, true, true, false⟩
      ⟨true, true, true, true⟩ (by decide)⟩

/-- C5: the orchestrator validates columns and rows independently: a
columns value that is unparsable or outside [1,10] falls back to 2, a rows
value that is unparsable or outside [1,20] falls back to 4, in-range values
are kept, and each component depends only on its own parameter. -/
theorem c5_layout_validation (rowParam columnParam : String) :
    ((parseIntM columnParam = none ∨
        ∃ p, parseIntM columnParam = some p ∧ (p < 1 ∨ p > 10)) →
      (pipelineLayout rowParam columnParam).1 = 2) ∧
    (∀ p : ℤ, parseIntM columnParam = some p → 1 ≤ p → p ≤ 10 →
      (pipelineLayout rowParam columnParam).1 = p) ∧
    ((parseIntM rowParam = none ∨
        ∃ p, parseIntM rowParam = some p ∧ (p < 1 ∨ p > 20)) →
      (pipelineLayout rowParam columnParam).2 = 4) ∧
    (∀ p : ℤ, parseIntM rowParam = some p → 1 ≤ p → p ≤ 20 →
      (pipelineLayout rowParam columnParam).2 = p) ∧
    (∀ rowParam2 : String, (pipelineLayout rowParam2 columnParam).1 =
      (pipelineLayout rowParam columnParam).1) ∧
    (∀ columnParam2 : String, (pipelineLayout rowParam columnParam2).2 =
      (pipelineLayout rowParam columnParam).2) := by
  refine ⟨?_, ?_, ?_, ?_, fun _ => rfl, fun _ => rfl⟩
  · intro h
    rcases h with h | ⟨p, hp, hrange⟩
    · simp [pipelineLayout, validateInteger, h, DEFAULT_COLUMNS]
    · simp only [pipelineLayout, validateInteger, MAX_COLUMNS,
        DEFAULT_COLUMNS, hp]
      rw [if_pos hrange]
  · intro p hp h1 h10
    simp only [pipelineLayout, validateInteger, MAX_COLUMNS,
      DEFAULT_COLUMNS, hp]
    rw [if_neg (by omega : ¬ (p < 1 ∨ p > 10))]
  · intro h
    rcases h with h | ⟨p, hp, hrange⟩
    · simp [pipelineLayout, validateInteger, h, DEFAULT_ROWS]
    · simp only [pipelineLayout, validateInteger, MAX_ROWS, DEFAULT_ROWS, hp]
      rw [if_pos hrange]
  · intro p hp h1 h20
    simp only [pipelineLayout, validateInteger, MAX_ROWS, DEFAULT_ROWS, hp]
    rw [if_neg (by omega : ¬ (p < 1 ∨ p > 20))]

/-- C5 witness: columns=15 is out of range and falls back to the default 2
while the valid rows value 7 is kept. -/
theorem c5_layout_validation_witness :
    (pipelineLayout "7" "15").1 = 2 ∧ (pipelineLayout "7" "15").2 = 7 := by
  have h := c5_layout_validation "7" "15"
  exact ⟨h.1 (Or.inr ⟨15, by decide, by decide⟩),
    h.2.2.2.1 7 (by decide) (by decide) (by decide)⟩

/-- C6: the sequence-number labels on the tiles of an assembled document
are exactly the decimal numerals 1..N in document order, independent of
page boundaries (never reset on a new page). -/
theorem c6_sequence_labels (dirFiles : List String) (columns rows : ℕ)
    (hc : 0 < columns) (hr : 0 < rows)
    (hne : filterImageFiles dirFiles ≠ []) :
    ∃ out, createPdfFromImages noErr noErr dirFiles columns rows = .ok out ∧
      out.tiles.map (fun t => t.label) =
        (List.range (filterImageFiles dirFiles).length).map
          (fun i => Nat.repr (i + 1)) := by
  refine ⟨_, createPdfFromImages_ok noErr noErr dirFiles columns rows hc hr
    (fun g hg => by simp [noErr] at hg) hne, ?_⟩
  apply List.ext_get
  · simp [canonTiles_length, sortStrings_length]
  · intro i h1 h2
    have hs : i < (sortStrings (filterImageFiles dirFiles)).length := by
      rw [sortStrings_length]
      simpa using h2
    have hc2 : i < (canonTiles columns rows (A4_WIDTH / columns)
        ((A4_HEIGHT / rows) * 0.9) noErr 0
        (sortStrings (filterImageFiles dirFiles))).length := by
      rwa [canonTiles_length]
    simp only [List.get_eq_getElem, List.getElem_map, List.getElem_range]
    rw [canonTiles_getElem _ _ _ _ _ _ 0 i hc2 hs]
    simp [canonTile]

/-- C6 witness: three images get labels "1", "2", "3". -/
theorem c6_sequence_labels_witness :
    (createPdfFromImages noErr noErr ["b.png", "a.png", "c.png"] 2 4).toOption.map
      (fun o => o.tiles.map (fun t => t.label)) = some ["1", "2", "3"] := by
  obtain ⟨out, hok, hlab⟩ := c6_sequence_labels ["b.png", "a.png", "c.png"]
    2 4 (by decide) (by decide) (by decide)
  rw [hok]
  simp only [Except.toOption, Option.map]
  rw [hlab]
  decide

/-- C7: on a uniform channel value v in [0,255], the stage 1 → 2 → 3 chain
equals the closed-form composition s1 = clamp(1.3·(255−v) − 50),
s2 = clamp(1.2·(255−s1) − 30), s3 = clamp(1.5·(255−s2) − 30), with each
stage negating, applying its linear remap and clamping before the next
stage runs. -/
theorem c7_channel_chain (v : ℚ) (h0 : 0 ≤ v) (h255 : v ≤ 255) :
    transformChain v =
      clampChannel (1.5 * (255 - clampChannel (1.2 *
        (255 - clampChannel (1.3 * (255 - v) - 50)) - 30)) - 30) := by
  simp only [transformChain, finalStageChannel, stageTwoChannel,
    stageOneChannel, linearChannel, negateChannel, sub_eq_add_neg]

/-- C7 witness: the chain at the uniform mid-gray value 128. -/
theorem c7_channel_chain_witness :
    transformChain 128 =
      clampChannel (1.5 * (255 - clampChannel (1.2 *
        (255 - clampChannel (1.3 * (255 - 128) - 50)) - 30)) - 30) :=
  c7_channel_chain 128 (by norm_num) (by norm_num)

/-- C8: every tile whose fit-scale draw fails (and whose fallback draw
succeeds) is drawn stretched to exactly (tileWidth, tileHeight) at the
unpadded tile origin, the fallback is logged, and the run still succeeds
with all tiles placed. -/
theorem c8_fit_fallback (dirFiles : List String) (columns rows : ℕ)
    (fitErr fbErr : String → Option String) (hc : 0 < columns)
    (hr : 0 < rows)
    (hsafe : ∀ g, (fitErr g).isSome = true → fbErr g = none)
    (hne : filterImageFiles dirFiles ≠ []) :
    ∃ out, createPdfFromImages fitErr fbErr dirFiles columns rows = .ok out ∧
      out.tiles.length = (filterImageFiles dirFiles).length ∧
      ∀ (i : ℕ) (h : i < out.tiles.length),
        (fitErr (out.tiles.get ⟨i, h⟩).file).isSome = true →
          (out.tiles.get ⟨i, h⟩).draw =
            ImgDraw.stretch (out.tiles.get ⟨i, h⟩).x (out.tiles.get ⟨i, h⟩).y
              (A4_WIDTH / columns) ((A4_HEIGHT / rows) * 0.9) ∧
          ("Using fallback for image: " ++ (out.tiles.get ⟨i, h⟩).file) ∈
            out.warns := by
  refine ⟨_, createPdfFromImages_ok fitErr fbErr dirFiles columns rows hc hr
    hsafe hne, ?_, ?_⟩
  · show (canonTiles _ _ _ _ _ _ _).length = _
    rw [canonTiles_length, sortStrings_length]
  · intro i h hfail
    have hs : i < (sortStrings (filterImageFiles dirFiles)).length := by
      have h2 : i < (canonTiles columns rows (A4_WIDTH / columns)
          ((A4_HEIGHT / rows) * 0.9) fitErr 0
          (sortStrings (filterImageFiles dirFiles))).length := h
      rwa [canonTiles_length] at h2
    simp only [List.get_eq_getElem] at hfail ⊢
    rw [canonTiles_getElem _ _ _ _ _ _ 0 i h hs] at hfail ⊢
    simp only [canonTile] at hfail
    constructor
    · simp [canonTile, hfail]
    · show _ ∈ canonWarns _ _ _
      simp only [canonTile]
      exact canonWarns_mem _ fitErr _ _ (List.getElem_mem hs) hfail

/-- C8 witness: one failing fit draw among two images; the run still
succeeds and places both tiles. -/
theorem c8_fit_fallback_witness :
    (createPdfFromImages (fun f => if f = "b.png" then some "fit oops" else none)
      noErr ["b.png", "a.png"] 2 4).toOption.map (fun o => o.tiles.length) =
      some 2 := by
  obtain ⟨out, hok, hlen, -⟩ := c8_fit_fallback ["b.png", "a.png"] 2 4
    (fun f => if f = "b.png" then some "fit oops" else none) noErr
    (by decide) (by decide) (fun g _ => rfl) (by decide)
  rw [hok]
  simp only [Except.toOption, Option.map]
  rw [hlen]
  decide

/-- C9 (implicit): when a tile's fallback stretch draw itself throws, the
error is not caught locally: it escapes the per-tile loop to the outer
handler of `createPdfFromImages`, which aborts the entire assembly run with
that message wrapped as 'Failed to create PDF: ...'. -/
theorem c9_fallback_abort (dirFiles pre post : List String) (f : String)
    (columns rows : ℕ) (fitErr fbErr : String → Option String)
    (hc : 0 < columns) (hr : 0 < rows)
    (hsorted : sortStrings (filterImageFiles dirFiles) = pre ++ f :: post)
    (hsafe : ∀ g ∈ pre, (fitErr g).isSome = true → fbErr g = none)
    (e m : String) (hfit : fitErr f = some e) (hfb : fbErr f = some m) :
    createPdfFromImages fitErr fbErr dirFiles columns rows =
      .error ("Failed to create PDF: " ++ m) := by
  have hm : 0 < columns * rows := Nat.mul_pos hc hr
  have hlen0 : ¬ (filterImageFiles dirFiles).length = 0 := by
    intro h0
    have h2 := sortStrings_length (filterImageFiles dirFiles)
    rw [hsorted, h0] at h2
    simp at h2
  obtain ⟨x2, y2, hrec⟩ := asmLoop_ok columns rows hc hr (A4_WIDTH / columns)
    ((A4_HEIGHT / rows) * 0.9) "Using fallback for image: " fitErr fbErr pre
    hsafe 0 0 0 [] [] (fun h => absurd (Nat.zero_mod (columns * rows)) h)
  rw [ceilD_zero (columns * rows) hm] at hrec
  simp only [createPdfFromImages]
  rw [if_neg hlen0, hsorted, asmLoop_append, hrec]
  simp [asmLoop, hfit, hfb]

/-- C9 witness: a single image whose fit and fallback draws both throw
aborts the whole assembly with the fallback's message. -/
theorem c9_fallback_abort_witness :
    createPdfFromImages (fun f => if f = "a.png" then some "fit oops" else none)
      (fun f => if f = "a.png" then some "stretch oops" else none)
      ["a.png"] 2 4 = .error "Failed to create PDF: stretch oops" := by
  have h := c9_fallback_abort ["a.png"] [] [] "a.png" 2 4
    (fun f => if f = "a.png" then some "fit oops" else none)
    (fun f => if f = "a.png" then some "stretch oops" else none)
    (by decide) (by decide) (by decide)
    (fun g hg => (List.not_mem_nil g hg).elim)
    "fit oops" "stretch oops" (by decide) (by decide)
  rw [h]
  decide

/-- C10 (implicit): layout parsing truncates rather than rejects: whenever
the leading characters of a string parse under base-10 `parseInt` to an
integer within [lo, hi], `validateInteger` returns that truncated integer
instead of the default. -/
theorem c10_truncating_parse (s : String) (p lo hi d : ℤ)
    (hparse : parseIntM s = some p) (hlo : lo ≤ p) (hhi : p ≤ hi) :
    validateInteger s lo hi d = p := by
  simp only [validateInteger, hparse]
  rw [if_neg (show ¬ (p < lo ∨ p > hi) by omega)]

/-- C10 witness: "3.7" is accepted as 3 and "7abc" as 7. -/
theorem c10_truncating_parse_witness :
    validateInteger "3.7" 1 10 2 = 3 ∧ validateInteger "7abc" 1 20 4 = 7 :=
  ⟨c10_truncating_parse "3.7" 3 1 10 2 (by decide) (by decide) (by decide),
   c10_truncating_parse "7abc" 7 1 20 4 (by decide) (by decide) (by decide)⟩

end GoodPdf
